import Mathlib

/-!
# Verification of the ical-mcp OAuth subsystem

A shallow embedding, in Lean 4, of the OAuth 2.0 authorization subsystem of
the `ical-mcp` repository (Cloudflare-Workers TypeScript), together with
theorems settling the specification claims about it.

Conventions of the embedding:

* Machine times (`Date.now()` values, `expiresAt`, `createdAt`) are `Nat`
  milliseconds, passed explicitly where the source calls `Date.now()`.
* The Durable-Object key-value storage is embedded as records of finite maps
  `String → Option v`, one field per storage-key prefix (`client:`,
  `pending:`, `authcode:`, `session:`, `user:`), mirroring the typed reads
  and writes of the source.
* Platform primitives that are external to the repository (Web Crypto
  AES-GCM, `TextEncoder`/`TextDecoder`, SHA-256, randomness, the network
  oracle) are parameters of the embedded functions: randomness becomes an
  explicit argument, and cryptographic primitives become bundled structures
  carrying their standard correctness laws.
* Byte strings are `List Nat`; the Node `Buffer` base64 layer of the stored
  blob is an external bijection and is elided, so the embedded blob is the
  byte sequence the source base64-encodes.
-/

namespace ICalMcp

/-- Embedding of JavaScript `String.prototype.startsWith` over `List Char`. -/
def strStartsWith (s p : String) : Bool := p.data.isPrefixOf s.data

/-- Embedding of JavaScript `String.prototype.slice(n)` (codepoint drop). -/
def strDrop (s : String) (n : Nat) : String := String.mk (s.data.drop n)

/-! ## Credential Vault — `src/oauth/crypto.ts`

`encrypt`/`decrypt` use AES-256-GCM through `crypto.subtle` with a fresh
random 12-byte IV per call, the IV prepended to the ciphertext in the
stored blob.  The AEAD cipher itself and the UTF-8 text codec are platform
primitives; they are embedded as structures bundling the functions with the
laws the platform guarantees. -/

/-- Model of the platform AEAD cipher (`crypto.subtle` AES-GCM):
encryption and decryption as functions of key, IV and message, with the
AEAD round-trip law. -/
structure Aead where
  enc : List Nat → List Nat → List Nat → List Nat
  dec : List Nat → List Nat → List Nat → Option (List Nat)
  dec_enc : ∀ key iv msg, dec key iv (enc key iv msg) = some msg

/-- Model of the platform text codec (`TextEncoder`/`TextDecoder`):
an encoding of strings into bytes with a left inverse. -/
structure StringCodec where
  encode : String → List Nat
  decode : List Nat → String
  decode_encode : ∀ s, decode (encode s) = s

/-- Error outcomes of the vault: the distinct `InvalidKeyLength` throw of
`importKey` ("Encryption key must be 256 bits (32 bytes)") and the
`DecryptionFailed` throw of a failed `crypto.subtle.decrypt`. -/
inductive CryptoError where
  | invalidKeyLength
  | decryptionFailed
deriving DecidableEq, Repr

/-- `importKey` from `crypto.ts`: the key is rejected unless its decoded
byte length is exactly 32 (the base64 decoding of the external key string
is elided; `keyBytes` is the decoded key material). -/
def importKey (keyBytes : List Nat) : Except CryptoError (List Nat) :=
  if keyBytes.length ≠ 32 then .error .invalidKeyLength
  else .ok keyBytes

/-- `encrypt` from `crypto.ts`: import the key, draw a random 12-byte IV
(here the explicit argument `iv`), AES-GCM-encrypt the UTF-8 encoding of
the plaintext, and return IV ++ ciphertext. -/
def encrypt (codec : StringCodec) (aead : Aead)
    (plaintext : String) (keyBytes iv : List Nat) : Except CryptoError (List Nat) :=
  match importKey keyBytes with
  | .error e => .error e
  | .ok key => .ok (iv ++ aead.enc key iv (codec.encode plaintext))

/-- `decrypt` from `crypto.ts`: import the key, split the blob into its
first 12 bytes (IV) and the rest (ciphertext), AES-GCM-decrypt and decode
the resulting bytes as text. -/
def decrypt (codec : StringCodec) (aead : Aead)
    (encrypted : List Nat) (keyBytes : List Nat) : Except CryptoError String :=
  match importKey keyBytes with
  | .error e => .error e
  | .ok key =>
    let iv := encrypted.take 12
    let ciphertext := encrypted.drop 12
    match aead.dec key iv ciphertext with
    | none => .error .decryptionFailed
    | some msg => .ok (codec.decode msg)

/-- A degenerate but law-abiding AEAD instance, used to evaluate the vault
theorems on concrete inputs. -/
def idAead : Aead where
  enc := fun _ _ msg => msg
  dec := fun _ _ ct => some ct
  dec_enc := fun _ _ _ => rfl

/-- A concrete law-abiding text codec (codepoint encoding), used to
evaluate the vault theorems on concrete inputs. -/
def charCodec : StringCodec where
  encode := fun s => s.data.map Char.toNat
  decode := fun bs => String.mk (bs.map Char.ofNat)
  decode_encode := by
    intro s
    cases s with
    | mk data => simp [List.map_map, Function.comp_def, Char.ofNat_toNat]

/-- A fixed 32-byte key for concrete evaluations. -/
def key32 : List Nat := List.replicate 32 7

/-- A fixed 12-byte IV for concrete evaluations. -/
def iv12 : List Nat := List.range 12

/-- A second, distinct 12-byte IV for concrete evaluations. -/
def iv12' : List Nat := List.replicate 12 9

/-! ## Bearer Middleware — `src/oauth/middleware.ts`

`validateToken` resolves the `Authorization` header to a session and the
session to stored user credentials, updating `lastUsedAt` only after every
check has passed.  The vault `decrypt` call (performed with the fixed,
valid `encryptionKey` of the environment) is abstracted as `decryptFn`. -/

/-- `UserSession` from `src/oauth/types.ts`. -/
structure UserSession where
  userId : String
  accessToken : String
  refreshToken : String
  expiresAt : Nat
  scope : String
  createdAt : Nat
  lastUsedAt : Nat
deriving DecidableEq, Repr

/-- `UserCredentials` from `src/oauth/types.ts` (the two credential fields
hold vault ciphertext blobs). -/
structure UserCredentials where
  userId : String
  appleId : String
  appPassword : String
  createdAt : Nat
  updatedAt : Nat
deriving DecidableEq, Repr

/-- `Credentials` from `src/auth/credentials.ts`. -/
structure Credentials where
  appleId : String
  appSpecificPassword : String
deriving DecidableEq, Repr

/-- `TokenValidationResult` from `src/oauth/middleware.ts`. -/
inductive TokenValidationResult where
  | valid (credentials : Credentials) (userId : String)
  | invalid (error : String) (status : Nat)
deriving DecidableEq, Repr

/-- The slice of Durable-Object storage the middleware touches: the
`session:<accessToken>` records and the `user:<userId>` records. -/
structure MwStore where
  sessions : String → Option UserSession
  users : String → Option UserCredentials

/-- `validateToken` from `src/oauth/middleware.ts`.  `authHeader` is the
request's `Authorization` header (`none` when absent), `now` is
`Date.now()`, and the returned store reflects the `lastUsedAt` write of
the success path. -/
def validateToken (decryptFn : String → String) (authHeader : Option String)
    (st : MwStore) (now : Nat) : TokenValidationResult × MwStore :=
  match authHeader with
  | none => (.invalid "Missing or invalid Authorization header" 401, st)
  | some h =>
    if strStartsWith h "Bearer " then
      let token := strDrop h 7
      match st.sessions token with
      | none => (.invalid "Invalid token" 401, st)
      | some session =>
        if session.expiresAt < now then
          (.invalid "Token expired" 401, st)
        else
          match st.users session.userId with
          | none => (.invalid "User not found" 401, st)
          | some userCredentials =>
            (.valid
              { appleId := decryptFn userCredentials.appleId
                appSpecificPassword := decryptFn userCredentials.appPassword }
              session.userId,
             { st with
                sessions := fun k =>
                  if k = token then some { session with lastUsedAt := now }
                  else st.sessions k })
    else (.invalid "Missing or invalid Authorization header" 401, st)

/-- `hasBearerToken` from `src/oauth/middleware.ts`:
`authHeader?.startsWith('Bearer ') ?? false`. -/
def hasBearerToken (authHeader : Option String) : Bool :=
  match authHeader with
  | none => false
  | some h => strStartsWith h "Bearer "

/-- The claim's reading of `hasBearerToken`, stated from the spec's words
for comparison: the header is present, starts with `"Bearer "`, and a
non-empty token follows the prefix. -/
def hasBearerTokenSpec (authHeader : Option String) : Bool :=
  match authHeader with
  | none => false
  | some h => strStartsWith h "Bearer " && decide (strDrop h 7 ≠ "")

/-- A concrete unexpired session for evaluating the middleware theorems. -/
def session0 : UserSession :=
  { userId := "user_1", accessToken := "tok1", refreshToken := "ref1"
    expiresAt := 1000, scope := "calendar:read"
    createdAt := 0, lastUsedAt := 0 }

/-- A concrete store holding `session0` and no user credentials, so that
`session0` is an orphaned session. -/
def mwStore0 : MwStore where
  sessions := fun k => if k = "tok1" then some session0 else none
  users := fun _ => none

/-! ## Client Registry — `src/oauth/register.ts`

`validateRedirectUris` accepts a non-empty list in which every URI parses
and is either a `localhost` URI (any scheme) or an HTTPS URI contained in
the fixed allow-list of Claude callback URLs.  The WHATWG `URL` platform
parser is modelled by `parseUrl` for the `scheme://host[:port][/path]`
shapes the registry receives. -/

/-- `ALLOWED_CALLBACKS` from `validateRedirectUris` in
`src/oauth/register.ts`. -/
def ALLOWED_CALLBACKS : List String :=
  ["https://claude.ai/api/mcp/auth_callback",
   "https://claude.com/api/mcp/auth_callback"]

/-- The two `URL` properties the registry reads. -/
structure ParsedUrl where
  protocol : String
  hostname : String
deriving DecidableEq, Repr

/-- Split a character list at the first `"://"` occurrence. -/
def findSchemeSep : List Char → Option (List Char × List Char)
  | [] => none
  | ':' :: '/' :: '/' :: rest => some ([], rest)
  | c :: rest => (findSchemeSep rest).map (fun p => (c :: p.1, p.2))

/-- A character admissible in a URL scheme. -/
def isSchemeChar (c : Char) : Bool :=
  c.isAlpha || c.isDigit || c = '+' || c = '-' || c = '.'

/-- Model of the platform WHATWG `URL` parser (`URL.canParse` /
`new URL`), restricted to the `scheme://host[:port][/path]` URLs the
registry handles: `none` models `URL.canParse(uri) === false`. -/
def parseUrl (uri : String) : Option ParsedUrl :=
  match findSchemeSep uri.data with
  | none => none
  | some (scheme, rest) =>
    if scheme = [] || !scheme.all isSchemeChar then none
    else
      let host := (rest.takeWhile (fun c => c ≠ '/')).takeWhile (fun c => c ≠ ':')
      if host = [] then none
      else some { protocol := String.mk scheme ++ ":", hostname := String.mk host }

/-- The per-URI test of the `uris.every(...)` lambda in
`validateRedirectUris`: the URI must parse, and must either be localhost
(for development) or HTTPS and in the allow-list. -/
def redirectUriAllowed (uri : String) : Bool :=
  match parseUrl uri with
  | none => false
  | some parsed =>
    decide (parsed.hostname = "localhost") ||
      (decide (parsed.protocol = "https:") && decide (uri ∈ ALLOWED_CALLBACKS))

/-- `validateRedirectUris` from `src/oauth/register.ts`. -/
def validateRedirectUris (uris : List String) : Bool :=
  if uris.length = 0 then false
  else uris.all redirectUriAllowed

/-- The spec's characterization of valid redirect-URI lists, stated from
the spec's words for comparison with `validateRedirectUris`. -/
def specValidRedirectUris (uris : List String) : Prop :=
  uris ≠ [] ∧ ∀ uri ∈ uris, ∃ parsed, parseUrl uri = some parsed ∧
    (parsed.hostname = "localhost" ∨
      (parsed.protocol = "https:" ∧ uri ∈ ALLOWED_CALLBACKS))

/-! ## Authorization Flow Manager — `src/oauth/authorize.ts`
(implemented variant)

`handleAuthorizeSubmit` processes the credential form: required fields,
pending-authorization lookup, upstream credential verification, encrypted
credential storage, code minting, pending cleanup, redirect.  The iCloud
CalDAV oracle (`validateICloudCredentials`, a network call) is the
parameter `oracle`; the vault `encrypt` call with the environment key is
`encryptFn`; the random `generateUserId`/`generateSecureToken` outputs are
the parameters `userId` and `code`. -/

/-- `AuthorizationRequest` from `src/oauth/types.ts`. -/
structure AuthorizationRequest where
  response_type : String
  client_id : String
  redirect_uri : String
  scope : Option String
  state : String
  code_challenge : Option String
  code_challenge_method : Option String
deriving DecidableEq, Repr

/-- The pending-authorization record as the authorize endpoint stores it:
`{ params, createdAt }` (the shape `put` writes and `get` reads). -/
structure PendingAuthorization where
  params : AuthorizationRequest
  createdAt : Nat
deriving DecidableEq, Repr

/-- `AuthorizationCode` from `src/oauth/types.ts`. -/
structure AuthorizationCode where
  code : String
  clientId : String
  redirectUri : String
  userId : String
  scope : String
  codeChallenge : Option String
  codeChallengeMethod : Option String
  expiresAt : Nat
  createdAt : Nat
deriving DecidableEq, Repr

/-- `TokenResponse` from `src/oauth/types.ts`. -/
structure TokenResponse where
  access_token : String
  token_type : String
  expires_in : Nat
  refresh_token : Option String
  scope : Option String
deriving DecidableEq, Repr

/-- `OAuthErrorCode` from `src/oauth/types.ts`. -/
inductive OAuthErrorCode where
  | invalid_request
  | invalid_client
  | invalid_grant
  | unauthorized_client
  | unsupported_grant_type
  | invalid_scope
  | access_denied
  | server_error
deriving DecidableEq, Repr

/-- The body of an HTTP response of the OAuth endpoints: a structured
OAuth error, the rendered credential form (`renderAuthorizePage`, modelled
by its arguments), a redirect, or a token response. -/
inductive ResponseBody where
  | oauthError (error : OAuthErrorCode) (description : String)
  | authorizePage (pendingId : String) (params : AuthorizationRequest)
      (error : Option String)
  | redirect (location : String)
  | token (response : TokenResponse)
deriving DecidableEq, Repr

/-- An HTTP response: status code plus body. -/
structure HttpResponse where
  status : Nat
  body : ResponseBody
deriving DecidableEq, Repr

/-- `createOAuthErrorResponse` from `src/oauth/register.ts`. -/
def createOAuthErrorResponse (error : OAuthErrorCode) (description : String)
    (status : Nat) : HttpResponse :=
  { status := status, body := .oauthError error description }

/-- `AUTH_CODE_EXPIRY_MS` from `src/oauth/constants.ts` (10 minutes). -/
def AUTH_CODE_EXPIRY_MS : Nat := 10 * 60 * 1000

/-- `PENDING_AUTH_EXPIRY_MS` from `src/oauth/constants.ts` (10 minutes).
Declared by the source but referenced nowhere else in it. -/
def PENDING_AUTH_EXPIRY_MS : Nat := 10 * 60 * 1000

/-- `DEFAULT_SCOPE` from `src/oauth/constants.ts`. -/
def DEFAULT_SCOPE : String := "calendar:read calendar:write"

/-- The slice of Durable-Object storage the authorize endpoint touches. -/
structure AuthStore where
  pendings : String → Option PendingAuthorization
  users : String → Option UserCredentials
  authCodes : String → Option AuthorizationCode

/-- The three form fields POST /oauth/authorize reads from `FormData`. -/
structure SubmitForm where
  pending_id : Option String
  apple_id : Option String
  app_password : Option String

/-- `getRequiredFormField` from `src/oauth/utils.ts`: present and
non-empty. -/
def getRequiredFormField (value : Option String) : Option String :=
  match value with
  | some s => if s.data.length > 0 then some s else none
  | none => none

/-- `getRequiredFormFields` from `src/oauth/utils.ts`, applied to the
field list `['pending_id', 'apple_id', 'app_password']`. -/
def getRequiredFormFields (form : SubmitForm) : Option (String × String × String) :=
  match getRequiredFormField form.pending_id,
      getRequiredFormField form.apple_id,
      getRequiredFormField form.app_password with
  | some p, some a, some w => some (p, a, w)
  | _, _, _ => none

/-- The redirect URL built at the end of `handleAuthorizeSubmit`
(`new URL(redirect_uri)` plus `searchParams.set` of `code` and `state`). -/
def buildRedirectLocation (redirectUri code state : String) : String :=
  redirectUri ++ "?code=" ++ code ++ "&state=" ++ state

/-- `handleAuthorizeSubmit` from `src/oauth/authorize.ts` (implemented
variant): validates form fields, looks up the pending authorization (with
no expiry check), verifies credentials against the upstream oracle, then
stores encrypted credentials, mints the authorization code (carrying the
PKCE challenge when one was pending), deletes the pending record, and
redirects with `code` and `state`. -/
def handleAuthorizeSubmit (oracle : String → String → Bool)
    (encryptFn : String → String) (form : SubmitForm) (st : AuthStore)
    (now : Nat) (userId code : String) : HttpResponse × AuthStore :=
  match getRequiredFormFields form with
  | none => (createOAuthErrorResponse .invalid_request "Missing required form fields" 400, st)
  | some (pendingId, appleId, appPassword) =>
    match st.pendings pendingId with
    | none => (createOAuthErrorResponse .invalid_request "Invalid or expired authorization" 400, st)
    | some pending =>
      if oracle appleId appPassword then
        let credentials : UserCredentials :=
          { userId := userId
            appleId := encryptFn appleId
            appPassword := encryptFn appPassword
            createdAt := now, updatedAt := now }
        let st1 : AuthStore :=
          { st with users := fun k => if k = userId then some credentials else st.users k }
        let authCode : AuthorizationCode :=
          { code := code
            clientId := pending.params.client_id
            redirectUri := pending.params.redirect_uri
            userId := userId
            scope := pending.params.scope.getD DEFAULT_SCOPE
            codeChallenge := pending.params.code_challenge
            codeChallengeMethod :=
              match pending.params.code_challenge with
              | some _ => some (pending.params.code_challenge_method.getD "S256")
              | none => none
            expiresAt := now + AUTH_CODE_EXPIRY_MS
            createdAt := now }
        let st2 : AuthStore :=
          { st1 with authCodes := fun k => if k = code then some authCode else st1.authCodes k }
        let st3 : AuthStore :=
          { st2 with pendings := fun k => if k = pendingId then none else st2.pendings k }
        ({ status := 302
           body := .redirect (buildRedirectLocation pending.params.redirect_uri code pending.params.state) },
         st3)
      else
        ({ status := 200, body := .authorizePage pendingId pending.params (some "Invalid credentials") }, st)

/-- Concrete authorization-request parameters for evaluations. -/
def authorizeParams0 : AuthorizationRequest :=
  { response_type := "code", client_id := "client-1"
    redirect_uri := "https://claude.ai/api/mcp/auth_callback"
    scope := none, state := "xyz"
    code_challenge := none, code_challenge_method := none }

/-- A pending authorization created at time 0, hence long past the
pending-authorization TTL at any time beyond `PENDING_AUTH_EXPIRY_MS`. -/
def stalePending : PendingAuthorization :=
  { params := authorizeParams0, createdAt := 0 }

/-- A concrete store holding only `stalePending` under id `pending_1`. -/
def authStore0 : AuthStore where
  pendings := fun k => if k = "pending_1" then some stalePending else none
  users := fun _ => none
  authCodes := fun _ => none

/-- A concrete complete form submission naming `pending_1`. -/
def submitForm0 : SubmitForm :=
  { pending_id := some "pending_1", apple_id := some "a@example.com"
    app_password := some "pw-1234" }

/-! ## Token Service — spec-modelled

`src/oauth/token.ts` is explicitly marked "THIS FILE CONTAINS STUBS -
Hand-write the implementation": `handleAuthorizationCodeGrant` returns a
501 placeholder and `verifyCodeVerifier` returns `false`, with the
intended implementation present only as commented-out skeleton code and
skipped tests.  The functions below are therefore modelled from the spec
(§4.4 Token Service), which the skeleton and the skipped tests in
`test/oauth/token.test.ts` agree with.  SHA-256 followed by unpadded
base64url encoding (`crypto.subtle.digest` plus byte-to-text encoding,
both platform primitives) is abstracted as the parameter `s256`; the
random token generators become the explicit `accessToken`/`refreshToken`
arguments. -/

/-- `TokenRequest` from `src/oauth/types.ts`. -/
structure TokenRequest where
  grant_type : String
  code : Option String
  redirect_uri : Option String
  client_id : String
  client_secret : Option String
  refresh_token : Option String
  code_verifier : Option String
deriving DecidableEq, Repr

/-- The slice of Durable-Object storage the token endpoint touches. -/
structure TokenStore where
  authCodes : String → Option AuthorizationCode
  sessions : String → Option UserSession

/-- Modelled from the spec: `verifyCodeVerifier` is an unimplemented stub
in `src/oauth/token.ts` (it always returns `false`).  Per spec §4.4: a
missing verifier fails; for method `S256` the unpadded base64url encoding
of the SHA-256 digest of the verifier (the abstracted `s256`) must equal
the stored challenge; for `plain` the verifier must equal the challenge
byte-for-byte; any other method fails. -/
def verifyCodeVerifier (s256 : String → String) (codeVerifier : Option String)
    (codeChallenge : String) (method : Option String) : Bool :=
  match codeVerifier with
  | none => false
  | some v =>
    if method = some "S256" then decide (s256 v = codeChallenge)
    else if method = some "plain" then decide (v = codeChallenge)
    else false

/-- The success tail of the authorization-code grant (spec §4.4 steps
5–8): persist the `UserSession` under the fresh access token, delete the
authorization code (single use), and return the token response. -/
def grantTokens (st : TokenStore) (authCode : AuthorizationCode) (c : String)
    (now : Nat) (accessToken refreshToken : String) : HttpResponse × TokenStore :=
  let session : UserSession :=
    { userId := authCode.userId, accessToken := accessToken
      refreshToken := refreshToken, expiresAt := now + 3600 * 1000
      scope := authCode.scope, createdAt := now, lastUsedAt := now }
  let st1 : TokenStore :=
    { st with sessions := fun k => if k = accessToken then some session else st.sessions k }
  let st2 : TokenStore :=
    { st1 with authCodes := fun k => if k = c then none else st1.authCodes k }
  ({ status := 200
     body := .token
       { access_token := accessToken, token_type := "Bearer", expires_in := 3600
         refresh_token := some refreshToken, scope := some authCode.scope } },
   st2)

/-- Modelled from the spec: `handleAuthorizationCodeGrant` is an
unimplemented stub in `src/oauth/token.ts` (it returns a 501 placeholder).
Per spec §4.4: fetch the `AuthorizationCode` (an absent `code` field
misses the lookup); `invalid_grant` if absent or past `expiresAt`;
`invalid_grant` on a `redirect_uri` mismatch; when a `codeChallenge` is
stored, `invalid_grant` unless the verifier validates; otherwise issue
tokens, persist the session, and delete the code. -/
def handleAuthorizationCodeGrant (s256 : String → String) (body : TokenRequest)
    (st : TokenStore) (now : Nat) (accessToken refreshToken : String) :
    HttpResponse × TokenStore :=
  match body.code with
  | none => (createOAuthErrorResponse .invalid_grant "Invalid or expired code" 400, st)
  | some c =>
    match st.authCodes c with
    | none => (createOAuthErrorResponse .invalid_grant "Invalid or expired code" 400, st)
    | some authCode =>
      if authCode.expiresAt < now then
        (createOAuthErrorResponse .invalid_grant "Invalid or expired code" 400, st)
      else if body.redirect_uri = some authCode.redirectUri then
        match authCode.codeChallenge with
        | some challenge =>
          if verifyCodeVerifier s256 body.code_verifier challenge authCode.codeChallengeMethod then
            grantTokens st authCode c now accessToken refreshToken
          else
            (createOAuthErrorResponse .invalid_grant "Invalid code_verifier" 400, st)
        | none => grantTokens st authCode c now accessToken refreshToken
      else
        (createOAuthErrorResponse .invalid_grant "redirect_uri mismatch" 400, st)

/-- A concrete stored authorization code without a PKCE challenge. -/
def authCode0 : AuthorizationCode :=
  { code := "code1", clientId := "client-1"
    redirectUri := "https://claude.ai/api/mcp/auth_callback"
    userId := "user_1", scope := "calendar:read"
    codeChallenge := none, codeChallengeMethod := none
    expiresAt := 1000, createdAt := 0 }

/-- A concrete stored authorization code carrying an S256 PKCE
challenge. -/
def authCodePkce : AuthorizationCode :=
  { code := "code2", clientId := "client-1"
    redirectUri := "https://claude.ai/api/mcp/auth_callback"
    userId := "user_1", scope := "calendar:read"
    codeChallenge := some "challenge123", codeChallengeMethod := some "S256"
    expiresAt := 1000, createdAt := 0 }

/-- A concrete token store holding `authCode0` and `authCodePkce`. -/
def tokenStore0 : TokenStore where
  authCodes := fun k =>
    if k = "code1" then some authCode0
    else if k = "code2" then some authCodePkce
    else none
  sessions := fun _ => none

/-- A concrete exchange request for `authCode0`. -/
def tokenRequest0 : TokenRequest :=
  { grant_type := "authorization_code", code := some "code1"
    redirect_uri := some "https://claude.ai/api/mcp/auth_callback"
    client_id := "client-1", client_secret := none
    refresh_token := none, code_verifier := none }

/-- A concrete exchange request for `authCodePkce` presenting
`verifier123`. -/
def tokenRequestPkce : TokenRequest :=
  { grant_type := "authorization_code", code := some "code2"
    redirect_uri := some "https://claude.ai/api/mcp/auth_callback"
    client_id := "client-1", client_secret := none
    refresh_token := none, code_verifier := some "verifier123" }

/-- A stand-in for base64url-of-SHA-256 in concrete evaluations: it maps
`verifier123` to `challenge123` and everything else elsewhere. -/
def s256Stub (v : String) : String :=
  if v = "verifier123" then "challenge123" else "digest:" ++ v

/-- C4: for every plaintext string (including the empty string and strings
with multi-byte characters) and every 32-byte key, decrypting the blob
produced by `encrypt` with the same key returns the original plaintext. -/
theorem decrypt_encrypt_roundtrip (codec : StringCodec) (aead : Aead)
    (plaintext : String) (keyBytes iv blob : List Nat)
    (hkey : keyBytes.length = 32) (hiv : iv.length = 12)
    (henc : encrypt codec aead plaintext keyBytes iv = .ok blob) :
    decrypt codec aead blob keyBytes = .ok plaintext := by
  have hik : importKey keyBytes = .ok keyBytes := by
    simp [importKey, hkey]
  have hblob : blob = iv ++ aead.enc keyBytes iv (codec.encode plaintext) := by
    simpa [encrypt, hik] using henc.symm
  subst hblob
  simp [decrypt, hik, List.take_left' hiv, List.drop_left' hiv,
    aead.dec_enc, codec.decode_encode]

/-- Witness for C4: the round trip evaluated on a concrete multi-byte
plaintext, 32-byte key and 12-byte IV. -/
theorem decrypt_encrypt_roundtrip_witness :
    decrypt charCodec idAead
      (iv12 ++ idAead.enc key32 iv12 (charCodec.encode "héllo ✓"))
      key32 = .ok "héllo ✓" :=
  decrypt_encrypt_roundtrip charCodec idAead "héllo ✓" key32 iv12
    (iv12 ++ idAead.enc key32 iv12 (charCodec.encode "héllo ✓"))
    (by decide) (by decide) rfl

/-- C5: two `encrypt` calls on the same plaintext and key that draw
distinct fresh 12-byte IVs produce different output blobs (the IV is
prepended, so blobs with distinct IVs differ). -/
theorem encrypt_nonce_uniqueness (codec : StringCodec) (aead : Aead)
    (plaintext : String) (keyBytes iv₁ iv₂ : List Nat)
    (hkey : keyBytes.length = 32)
    (h₁ : iv₁.length = 12) (h₂ : iv₂.length = 12) (hne : iv₁ ≠ iv₂) :
    encrypt codec aead plaintext keyBytes iv₁ ≠
      encrypt codec aead plaintext keyBytes iv₂ := by
  intro h
  have hik : importKey keyBytes = .ok keyBytes := by
    simp [importKey, hkey]
  simp only [encrypt, hik] at h
  have happ := Except.ok.inj h
  have := congrArg (List.take 12) happ
  rw [List.take_left' h₁, List.take_left' h₂] at this
  exact hne this

/-- Witness for C5: two concrete distinct IVs give different blobs. -/
theorem encrypt_nonce_uniqueness_witness :
    encrypt charCodec idAead "secret" key32 iv12 ≠
      encrypt charCodec idAead "secret" key32 iv12' :=
  encrypt_nonce_uniqueness charCodec idAead "secret" key32 iv12 iv12'
    (by decide) (by decide) (by decide) (by decide)

/-- C9: any key whose decoded byte length is not exactly 32 makes both
`encrypt` and `decrypt` fail with the distinct `InvalidKeyLength` error;
neither returns a result. -/
theorem bad_key_length_rejected (codec : StringCodec) (aead : Aead)
    (plaintext : String) (blob keyBytes iv : List Nat)
    (hkey : keyBytes.length ≠ 32) :
    encrypt codec aead plaintext keyBytes iv = .error .invalidKeyLength ∧
      decrypt codec aead blob keyBytes = .error .invalidKeyLength := by
  constructor <;> simp [encrypt, decrypt, importKey, hkey]

/-- Witness for C9: a 31-byte key is rejected by both operations. -/
theorem bad_key_length_rejected_witness :
    encrypt charCodec idAead "p" (List.replicate 31 0) iv12 =
        .error .invalidKeyLength ∧
      decrypt charCodec idAead [1, 2, 3] (List.replicate 31 0) =
        .error .invalidKeyLength :=
  bad_key_length_rejected charCodec idAead "p" [1, 2, 3]
    (List.replicate 31 0) iv12 (by decide)

/-- Every run of `validateToken` either fails with some 401 invalid result
and the unchanged store, or succeeds with a valid result; shared shape
lemma for the middleware theorems. -/
theorem validateToken_shape (decryptFn : String → String)
    (authHeader : Option String) (st : MwStore) (now : Nat) :
    (∃ e, validateToken decryptFn authHeader st now = (.invalid e 401, st)) ∨
    (∃ c u st', validateToken decryptFn authHeader st now = (.valid c u, st')) := by
  unfold validateToken
  cases authHeader with
  | none => exact .inl ⟨_, rfl⟩
  | some h =>
    by_cases hsw : strStartsWith h "Bearer "
    · simp only [hsw, if_true]
      cases hs : st.sessions (strDrop h 7) with
      | none => exact .inl ⟨_, rfl⟩
      | some session =>
        by_cases hexp : session.expiresAt < now
        · simp only [hexp, if_true]
          exact .inl ⟨_, rfl⟩
        · simp only [hexp, if_false]
          cases hu : st.users session.userId with
          | none => exact .inl ⟨_, rfl⟩
          | some uc => exact .inr ⟨_, _, _, rfl⟩
    · simp only [hsw, Bool.false_eq_true, if_false]
      exact .inl ⟨_, rfl⟩

/-- C6: `validateToken` answers an invalid result with status 401 — and no
other status — in each failure case: missing header, malformed header,
unknown token, expired session, and session whose user credentials are
missing (the orphaned session stays a 401, not a 404/500).  The final
conjunct shows every invalid result whatsoever carries status 401. -/
theorem validateToken_unauthorized_cases (decryptFn : String → String) :
    (∀ st now, validateToken decryptFn none st now =
      (.invalid "Missing or invalid Authorization header" 401, st)) ∧
    (∀ h st now, strStartsWith h "Bearer " = false →
      validateToken decryptFn (some h) st now =
        (.invalid "Missing or invalid Authorization header" 401, st)) ∧
    (∀ h st now, strStartsWith h "Bearer " = true →
      st.sessions (strDrop h 7) = none →
      validateToken decryptFn (some h) st now =
        (.invalid "Invalid token" 401, st)) ∧
    (∀ h st now session, strStartsWith h "Bearer " = true →
      st.sessions (strDrop h 7) = some session →
      session.expiresAt < now →
      validateToken decryptFn (some h) st now =
        (.invalid "Token expired" 401, st)) ∧
    (∀ h st now session, strStartsWith h "Bearer " = true →
      st.sessions (strDrop h 7) = some session →
      ¬ session.expiresAt < now →
      st.users session.userId = none →
      validateToken decryptFn (some h) st now =
        (.invalid "User not found" 401, st)) ∧
    (∀ authHeader st now e s,
      (validateToken decryptFn authHeader st now).1 = .invalid e s →
      s = 401) := by
  refine ⟨fun st now => rfl, ?_, ?_, ?_, ?_, ?_⟩
  · intro h st now hsw
    simp [validateToken, hsw]
  · intro h st now hsw hsess
    simp [validateToken, hsw, hsess]
  · intro h st now session hsw hsess hexp
    simp [validateToken, hsw, hsess, hexp]
  · intro h st now session hsw hsess hexp huser
    simp [validateToken, hsw, hsess, hexp, huser]
  · intro authHeader st now e s hinv
    rcases validateToken_shape decryptFn authHeader st now with ⟨e', hrun⟩ | ⟨c, u, st', hrun⟩
    · rw [hrun] at hinv
      exact (TokenValidationResult.invalid.inj hinv).2.symm
    · rw [hrun] at hinv
      exact absurd hinv (by simp)

/-- Witness for C6: on a concrete store the orphaned-session case (session
present, unexpired, but no `user:` record) yields the 401 invalid
result. -/
theorem validateToken_unauthorized_cases_witness :
    validateToken id (some "Bearer tok1") mwStore0 5 =
      (.invalid "User not found" 401, mwStore0) :=
  (validateToken_unauthorized_cases id).2.2.2.2.1 "Bearer tok1" mwStore0 5
    session0 (by decide) (by decide) (by decide) rfl

/-- C10 (implicit): `validateToken` mutates no stored state on any failure
path — whenever it returns an invalid result, the store it returns is
exactly the store it was given; the `lastUsedAt` write happens only after
all checks pass. -/
theorem validateToken_invalid_frame (decryptFn : String → String)
    (authHeader : Option String) (st : MwStore) (now : Nat)
    (e : String) (s : Nat) (st' : MwStore)
    (h : validateToken decryptFn authHeader st now = (.invalid e s, st')) :
    st' = st := by
  rcases validateToken_shape decryptFn authHeader st now with ⟨e', hrun⟩ | ⟨c, u, st'', hrun⟩
  · rw [hrun] at h
    exact (congrArg Prod.snd h).symm
  · rw [hrun] at h
    exact absurd (congrArg Prod.fst h) (by simp)

/-- Witness for C10: the unknown-token failure on a concrete store leaves
the store unchanged. -/
theorem validateToken_invalid_frame_witness : mwStore0 = mwStore0 :=
  validateToken_invalid_frame id (some "Bearer nope") mwStore0 5
    "Invalid token" 401 mwStore0 rfl

/-- C8 counterexample: the claim predicts `hasBearerToken` is false when
the Authorization header is exactly `"Bearer "` (empty token), but the
code's `startsWith` test accepts it, so the claimed if-and-only-if fails
at that input. -/
theorem hasBearerToken_empty_token_counterexample :
    hasBearerToken (some "Bearer ") = true ∧
      hasBearerTokenSpec (some "Bearer ") = false := by
  constructor <;> decide

/-- C8 amended: `hasBearerToken` is true iff the Authorization header is
present and starts with `"Bearer "`; the token after the prefix may be
empty. -/
theorem hasBearerToken_characterization :
    hasBearerToken none = false ∧
      ∀ h, hasBearerToken (some h) = strStartsWith h "Bearer " :=
  ⟨rfl, fun _ => rfl⟩

/-- Per-URI form of the redirect-URI check, shared by the registry
theorems. -/
theorem redirectUriAllowed_iff (uri : String) :
    redirectUriAllowed uri = true ↔
      ∃ parsed, parseUrl uri = some parsed ∧
        (parsed.hostname = "localhost" ∨
          (parsed.protocol = "https:" ∧ uri ∈ ALLOWED_CALLBACKS)) := by
  unfold redirectUriAllowed
  cases hp : parseUrl uri with
  | none => simp
  | some parsed => simp

/-- C7: `validateRedirectUris` rejects the empty list and
`["http://evil.example/steal"]`, accepts `["http://localhost:3000/cb"]`,
and in general returns true exactly when the list is non-empty and every
element parses as a URL and is either a localhost URI (any scheme) or an
HTTPS URI in the fixed allow-list. -/
theorem validateRedirectUris_correct :
    validateRedirectUris [] = false ∧
    validateRedirectUris ["http://evil.example/steal"] = false ∧
    validateRedirectUris ["http://localhost:3000/cb"] = true ∧
    ∀ uris, validateRedirectUris uris = true ↔ specValidRedirectUris uris := by
  refine ⟨by decide, by decide, by decide, ?_⟩
  intro uris
  unfold validateRedirectUris specValidRedirectUris
  by_cases hnil : uris = []
  · subst hnil
    simp
  · have hlen : ¬ uris.length = 0 := by
      simpa [List.length_eq_zero] using hnil
    rw [if_neg hlen, List.all_eq_true]
    constructor
    · intro hall
      exact ⟨hnil, fun uri hu => (redirectUriAllowed_iff uri).mp (hall uri hu)⟩
    · intro hspec uri hu
      exact (redirectUriAllowed_iff uri).mpr (hspec.2 uri hu)

/-- Witness for C7: the general characterization evaluated on the
allow-listed Claude callback. -/
theorem validateRedirectUris_correct_witness :
    validateRedirectUris ["https://claude.ai/api/mcp/auth_callback"] = true :=
  (validateRedirectUris_correct.2.2.2 ["https://claude.ai/api/mcp/auth_callback"]).mpr
    ⟨by decide, by decide⟩

/-- C3 evidence: `handleAuthorizeSubmit` does not enforce the
pending-authorization TTL.  At time `600001`, with `stalePending` created
at `0` (so `PENDING_AUTH_EXPIRY_MS = 600000` has long passed), the
submission is not answered with `invalid_request`: with failing upstream
credentials it re-renders the form (HTTP 200) — so credential
verification was reached — and with valid upstream credentials it issues
a code and redirects (HTTP 302). -/
theorem handleAuthorizeSubmit_ignores_pending_ttl :
    stalePending.createdAt + PENDING_AUTH_EXPIRY_MS < 600001 ∧
    (handleAuthorizeSubmit (fun _ _ => false) id submitForm0 authStore0
        600001 "user_1" "code1").1 =
      { status := 200
        body := .authorizePage "pending_1" authorizeParams0 (some "Invalid credentials") } ∧
    (handleAuthorizeSubmit (fun _ _ => true) id submitForm0 authStore0
        600001 "user_1" "code1").1.status = 302 := by
  refine ⟨by decide, by decide, by decide⟩

/-- Shared reduction: a fetched, unexpired code with matching redirect URI
and no stored challenge goes straight to token issuance. -/
theorem grant_valid_noChallenge (s256 : String → String) (body : TokenRequest)
    (st : TokenStore) (now : Nat) (atk rtk c : String) (ac : AuthorizationCode)
    (hcode : body.code = some c) (hlook : st.authCodes c = some ac)
    (hexp : ¬ ac.expiresAt < now) (hred : body.redirect_uri = some ac.redirectUri)
    (hch : ac.codeChallenge = none) :
    handleAuthorizationCodeGrant s256 body st now atk rtk =
      grantTokens st ac c now atk rtk := by
  simp [handleAuthorizationCodeGrant, hcode, hlook, hred, hexp, hch]

/-- Shared reduction: a fetched, unexpired code with matching redirect URI
and a stored challenge reduces to the PKCE check. -/
theorem grant_valid_challenge (s256 : String → String) (body : TokenRequest)
    (st : TokenStore) (now : Nat) (atk rtk c ch : String) (ac : AuthorizationCode)
    (hcode : body.code = some c) (hlook : st.authCodes c = some ac)
    (hexp : ¬ ac.expiresAt < now) (hred : body.redirect_uri = some ac.redirectUri)
    (hch : ac.codeChallenge = some ch) :
    handleAuthorizationCodeGrant s256 body st now atk rtk =
      if verifyCodeVerifier s256 body.code_verifier ch ac.codeChallengeMethod then
        grantTokens st ac c now atk rtk
      else
        (createOAuthErrorResponse .invalid_grant "Invalid code_verifier" 400, st) := by
  simp [handleAuthorizationCodeGrant, hcode, hlook, hred, hexp, hch]

/-- Shared reduction: a code absent from storage is answered with
`invalid_grant` and the store untouched. -/
theorem grant_missing_code (s256 : String → String) (body : TokenRequest)
    (st : TokenStore) (now : Nat) (atk rtk c : String)
    (hcode : body.code = some c) (hlook : st.authCodes c = none) :
    handleAuthorizationCodeGrant s256 body st now atk rtk =
      (createOAuthErrorResponse .invalid_grant "Invalid or expired code" 400, st) := by
  simp [handleAuthorizationCodeGrant, hcode, hlook]

/-- C1: a stored authorization code whose exchange request matches
(redirect URI equal, code unexpired, PKCE valid whenever a challenge is
stored) is exchangeable exactly once: the first exchange returns the 200
token response and removes the code from storage, and a subsequent
exchange of the same code — at any later time, with any fresh tokens —
returns `invalid_grant` and leaves the store unchanged. -/
theorem authorization_code_single_use (s256 : String → String)
    (body : TokenRequest) (st : TokenStore) (now now' : Nat)
    (atk1 rtk1 atk2 rtk2 c : String) (ac : AuthorizationCode)
    (hcode : body.code = some c)
    (hlook : st.authCodes c = some ac)
    (hexp : ¬ ac.expiresAt < now)
    (hred : body.redirect_uri = some ac.redirectUri)
    (hpkce : ∀ ch, ac.codeChallenge = some ch →
      verifyCodeVerifier s256 body.code_verifier ch ac.codeChallengeMethod = true) :
    (handleAuthorizationCodeGrant s256 body st now atk1 rtk1).1 =
      { status := 200
        body := .token
          { access_token := atk1, token_type := "Bearer", expires_in := 3600
            refresh_token := some rtk1, scope := some ac.scope } } ∧
    (handleAuthorizationCodeGrant s256 body st now atk1 rtk1).2.authCodes c = none ∧
    handleAuthorizationCodeGrant s256 body
        (handleAuthorizationCodeGrant s256 body st now atk1 rtk1).2 now' atk2 rtk2 =
      (createOAuthErrorResponse .invalid_grant "Invalid or expired code" 400,
       (handleAuthorizationCodeGrant s256 body st now atk1 rtk1).2) := by
  have hfirst : handleAuthorizationCodeGrant s256 body st now atk1 rtk1 =
      grantTokens st ac c now atk1 rtk1 := by
    cases hch : ac.codeChallenge with
    | none => exact grant_valid_noChallenge s256 body st now atk1 rtk1 c ac hcode hlook hexp hred hch
    | some ch =>
      rw [grant_valid_challenge s256 body st now atk1 rtk1 c ch ac hcode hlook hexp hred hch,
        if_pos (hpkce ch hch)]
  have hdel : (handleAuthorizationCodeGrant s256 body st now atk1 rtk1).2.authCodes c = none := by
    rw [hfirst]
    simp [grantTokens]
  exact ⟨by rw [hfirst]; rfl, hdel,
    grant_missing_code s256 body _ now' atk2 rtk2 c hcode hdel⟩

/-- Witness for C1: the concrete code `code1` exchanges once for a 200
token response, is deleted, and fails with `invalid_grant` on a second
exchange. -/
theorem authorization_code_single_use_witness :
    (handleAuthorizationCodeGrant s256Stub tokenRequest0 tokenStore0 5 "atok" "rtok").1 =
      { status := 200
        body := .token
          { access_token := "atok", token_type := "Bearer", expires_in := 3600
            refresh_token := some "rtok", scope := some authCode0.scope } } ∧
    (handleAuthorizationCodeGrant s256Stub tokenRequest0 tokenStore0 5 "atok" "rtok").2.authCodes "code1" = none ∧
    handleAuthorizationCodeGrant s256Stub tokenRequest0
        (handleAuthorizationCodeGrant s256Stub tokenRequest0 tokenStore0 5 "atok" "rtok").2
        6 "atok2" "rtok2" =
      (createOAuthErrorResponse .invalid_grant "Invalid or expired code" 400,
       (handleAuthorizationCodeGrant s256Stub tokenRequest0 tokenStore0 5 "atok" "rtok").2) :=
  authorization_code_single_use s256Stub tokenRequest0 tokenStore0 5 6
    "atok" "rtok" "atok2" "rtok2" "code1" authCode0 rfl (by decide) (by decide) rfl
    (fun ch h => by simp [authCode0] at h)

/-- C2: for a stored code carrying an S256 challenge — with the code
fetched, unexpired and the redirect URI matching — the exchange succeeds
exactly when the presented verifier hashes (base64url of SHA-256,
abstracted as `s256`) to the stored challenge: a matching verifier gets
the 200 token response; a verifier with a different digest, a missing
verifier, or a stored method other than `S256` and `plain` each get
`invalid_grant`. -/
theorem pkce_verification_cases (s256 : String → String) (st : TokenStore)
    (now : Nat) (c ch : String) (ac : AuthorizationCode)
    (hlook : st.authCodes c = some ac) (hexp : ¬ ac.expiresAt < now)
    (hch : ac.codeChallenge = some ch) :
    (∀ body atk rtk v, body.code = some c →
      body.redirect_uri = some ac.redirectUri →
      ac.codeChallengeMethod = some "S256" →
      body.code_verifier = some v → s256 v = ch →
      (handleAuthorizationCodeGrant s256 body st now atk rtk).1 =
        { status := 200
          body := .token
            { access_token := atk, token_type := "Bearer", expires_in := 3600
              refresh_token := some rtk, scope := some ac.scope } }) ∧
    (∀ body atk rtk v, body.code = some c →
      body.redirect_uri = some ac.redirectUri →
      ac.codeChallengeMethod = some "S256" →
      body.code_verifier = some v → s256 v ≠ ch →
      handleAuthorizationCodeGrant s256 body st now atk rtk =
        (createOAuthErrorResponse .invalid_grant "Invalid code_verifier" 400, st)) ∧
    (∀ body atk rtk, body.code = some c →
      body.redirect_uri = some ac.redirectUri →
      body.code_verifier = none →
      handleAuthorizationCodeGrant s256 body st now atk rtk =
        (createOAuthErrorResponse .invalid_grant "Invalid code_verifier" 400, st)) ∧
    (∀ body atk rtk, body.code = some c →
      body.redirect_uri = some ac.redirectUri →
      ac.codeChallengeMethod ≠ some "S256" →
      ac.codeChallengeMethod ≠ some "plain" →
      handleAuthorizationCodeGrant s256 body st now atk rtk =
        (createOAuthErrorResponse .invalid_grant "Invalid code_verifier" 400, st)) := by
  refine ⟨?_, ?_, ?_, ?_⟩
  · intro body atk rtk v hcode hred hm hv hs
    rw [grant_valid_challenge s256 body st now atk rtk c ch ac hcode hlook hexp hred hch,
      if_pos (by simp [verifyCodeVerifier, hv, hm, hs])]
    rfl
  · intro body atk rtk v hcode hred hm hv hs
    rw [grant_valid_challenge s256 body st now atk rtk c ch ac hcode hlook hexp hred hch,
      if_neg (by simp [verifyCodeVerifier, hv, hm, hs])]
  · intro body atk rtk hcode hred hv
    rw [grant_valid_challenge s256 body st now atk rtk c ch ac hcode hlook hexp hred hch,
      if_neg (by simp [verifyCodeVerifier, hv])]
  · intro body atk rtk hcode hred hm1 hm2
    rw [grant_valid_challenge s256 body st now atk rtk c ch ac hcode hlook hexp hred hch,
      if_neg ?_]
    cases hv : body.code_verifier with
    | none => simp [verifyCodeVerifier, hv]
    | some v => simp [verifyCodeVerifier, hv, hm1, hm2]

/-- Witness for C2: the concrete PKCE code `code2` (challenge
`challenge123`, method `S256`) exchanged with verifier `verifier123`,
whose stubbed digest equals the challenge, succeeds with the 200 token
response. -/
theorem pkce_verification_cases_witness :
    (handleAuthorizationCodeGrant s256Stub tokenRequestPkce tokenStore0 5 "atok" "rtok").1 =
      { status := 200
        body := .token
          { access_token := "atok", token_type := "Bearer", expires_in := 3600
            refresh_token := some "rtok", scope := some authCodePkce.scope } } :=
  (pkce_verification_cases s256Stub tokenStore0 5 "code2" "challenge123" authCodePkce
      (by decide) (by decide) rfl).1
    tokenRequestPkce "atok" "rtok" "verifier123" rfl rfl rfl rfl (by decide)

end ICalMcp
